/-
  Verification of the catalog aggregation and fallback pipeline of the
  netflix-clone server (server/src/controllers/movieController.js).

  The JavaScript controller is shallowly embedded: request handlers become
  pure Lean functions over explicit state (the process-wide TMDB health
  tracker), and the outside world (TMDB responses, database availability,
  query results, the wall clock) is passed in as explicit parameters.
  JavaScript numbers that can be NaN are modelled as `Option Int` with
  `none` standing for NaN; strings are Lean `String`s, with the empty
  string standing for both `''` and an absent (undefined) value wherever
  the JS code only tests truthiness.
-/
import Mathlib

namespace NetflixClone

/-! ## JavaScript primitives used by the controller -/

/-- A JavaScript number that may be NaN: `none` is NaN. The controller only
ever produces integral values from `Number(...)` on query strings and date
prefixes, so an `Int` payload suffices. -/
abbrev JsNum := Option Int

/-- `Char.isDigit`-based parse of a nonempty all-digit string. -/
def digitsToNat : List Char → Option Nat
  | [] => none
  | cs =>
    if cs.all Char.isDigit then
      some (cs.foldl (fun acc c => acc * 10 + (c.toNat - 48)) 0)
    else none

/-- JS `Number(s)` restricted to the string shapes the controller meets:
the empty string is `0`, an optionally `-`-signed digit string is its
value, and everything else is NaN (`none`).  (Fractional, exponent, hex
and whitespace-padded forms never reach `Number` in this controller.) -/
def jsNumber (s : String) : JsNum :=
  match s.data with
  | [] => some 0
  | '-' :: rest => (digitsToNat rest).map (fun n => -(n : Int))
  | cs => (digitsToNat cs).map (fun n => (n : Int))

/-- JS `a || b` on strings: the empty string is falsy. -/
def jsOrS (a b : String) : String :=
  if a = "" then b else a

/-- JS `String.prototype.toLowerCase` (ASCII case folding, which is all the
seed catalog and queries use). -/
def lowerStr (s : String) : String :=
  ⟨s.data.map Char.toLower⟩

/-- JS `hay.includes(needle)`: `needle` occurs contiguously in `hay`. -/
def listIncludes (needle : List Char) : List Char → Bool
  | [] => needle.isEmpty
  | c :: t => needle.isPrefixOf (c :: t) || listIncludes needle t

/-- JS `s.slice(0, n)` on a string. -/
def strTake (s : String) (n : Nat) : String :=
  ⟨s.data.take n⟩

/-- JS `title.toLowerCase().replace(/\s+/g, '-')` body: each maximal run of
whitespace becomes a single hyphen. -/
def collapseWs : List Char → List Char
  | [] => []
  | c :: t => if c.isWhitespace then '-' :: skipWs t else c :: collapseWs t
where
  /-- Consume the rest of a whitespace run, then resume. -/
  skipWs : List Char → List Char
  | [] => []
  | c :: t => if c.isWhitespace then skipWs t else c :: collapseWs t

/-! ## Data shapes -/

/-- A raw TMDB listing item, with `''` standing for an absent field
(the controller only tests these fields for truthiness). -/
structure TmdbItem where
  id : Int
  title : String := ""
  name : String := ""
  overview : String := ""
  release_date : String := ""
  first_air_date : String := ""
  poster_path : String := ""
  backdrop_path : String := ""
  adult : Bool := false
deriving DecidableEq, Repr

/-- A persisted `Movie` document as read back from the store.  `_id` holds
the string form of the Mongo ObjectId (`toString` of the ObjectId, a
24-character lowercase-hex string for real documents). -/
structure MovieDoc where
  _id : String
  title : String := ""
  description : String := ""
  category : String := ""
  type : String := ""
  year : JsNum := none
  rating : String := ""
  duration : String := ""
  imageUrl : String := ""
  backdropUrl : String := ""
  trailerUrl : String := ""
  featured : Bool := false
  createdAt : Option Nat := none
  updatedAt : Option Nat := none
deriving DecidableEq, Repr

/-- A record of the static seed catalog (`server/src/data/seedMovies`). -/
structure SeedMovie where
  title : String := ""
  description : String := ""
  category : String := ""
  type : String := ""
  year : JsNum := none
  rating : String := ""
  duration : String := ""
  imageUrl : String := ""
  backdropUrl : String := ""
  trailerUrl : String := ""
  featured : Bool := false
deriving DecidableEq, Repr

/-- The canonical content record produced by the three normalization
functions.  `createdAt`/`updatedAt` are `none` where the JS object has no
such field or an `undefined` one. -/
structure ContentRecord where
  id : String
  title : String
  description : String
  category : String
  type : String
  year : JsNum
  rating : String
  duration : String
  image : String
  backdrop : String
  trailerUrl : String
  featured : Bool
  createdAt : Option Nat := none
  updatedAt : Option Nat := none
deriving DecidableEq, Repr

def TMDB_IMAGE_BASE : String := "https://image.tmdb.org/t/p"

/-! ## Normalization layer -/

/-- `mapTmdbItem(item, category, type, trailerMap, isFeatured)`.
The trailer map is an association list keyed by `"{type}:{id}"`; the
ambient `new Date().getFullYear()` is passed in as `currentYear`. -/
def mapTmdbItem (item : TmdbItem) (category type : String)
    (trailerMap : List (String × String)) (isFeatured : Bool)
    (currentYear : Int) : ContentRecord :=
  let title := jsOrS item.title (jsOrS item.name "Untitled")
  let date := jsOrS item.release_date (jsOrS item.first_air_date "")
  let year : JsNum :=
    if date ≠ "" then jsNumber (strTake date 4) else some currentYear
  let poster :=
    if item.poster_path ≠ "" then TMDB_IMAGE_BASE ++ "/w500" ++ item.poster_path
    else if item.backdrop_path ≠ "" then TMDB_IMAGE_BASE ++ "/w780" ++ item.backdrop_path
    else ""
  let backdrop :=
    if item.backdrop_path ≠ "" then TMDB_IMAGE_BASE ++ "/w1280" ++ item.backdrop_path
    else poster
  let key := type ++ ":" ++ toString item.id
  { id := "tmdb-" ++ type ++ "-" ++ toString item.id
    title := title
    description := jsOrS item.overview "No description available."
    category := category
    type := type
    year := year
    rating := if item.adult then "18+" else "13+"
    duration := if type = "series" then "Series" else "Movie"
    image := poster
    backdrop := backdrop
    trailerUrl := jsOrS ((trailerMap.lookup key).getD "") ""
    featured := isFeatured }

/-- `normalizeMovie(movieDoc)`: direct field mapping; the id is
`movie._id.toString()` (the bare stringified ObjectId, no prefix). -/
def normalizeMovie (movie : MovieDoc) : ContentRecord :=
  { id := movie._id
    title := movie.title
    description := movie.description
    category := movie.category
    type := movie.type
    year := movie.year
    rating := movie.rating
    duration := movie.duration
    image := movie.imageUrl
    backdrop := movie.backdropUrl
    trailerUrl := movie.trailerUrl
    featured := movie.featured
    createdAt := movie.createdAt
    updatedAt := movie.updatedAt }

/-- `normalizeSeedMovie(movie)`: id is
`` `seed-${movie.title.toLowerCase().replace(/\s+/g, '-')}` ``. -/
def normalizeSeedMovie (movie : SeedMovie) : ContentRecord :=
  { id := "seed-" ++ (⟨collapseWs (lowerStr movie.title).data⟩ : String)
    title := movie.title
    description := movie.description
    category := movie.category
    type := movie.type
    year := movie.year
    rating := movie.rating
    duration := movie.duration
    image := movie.imageUrl
    backdrop := movie.backdropUrl
    trailerUrl := movie.trailerUrl
    featured := movie.featured
    createdAt := none
    updatedAt := none }

/-! ## Upstream health tracker -/

/-- The module-level mutable pair `tmdbDisabledUntil` / `tmdbFailureStreak`
(both initially 0), made explicit state. -/
structure HealthState where
  tmdbDisabledUntil : Nat
  tmdbFailureStreak : Nat
deriving DecidableEq, Repr

/-- The `catch` block of `getMovies`:
`tmdbFailureStreak += 1; if (tmdbFailureStreak >= 1) tmdbDisabledUntil = now + TMDB_COOLDOWN_MS`.
The guard is kept as written even though the freshly incremented streak is
always ≥ 1. -/
def recordFailure (now cooldown : Nat) (st : HealthState) : HealthState :=
  let streak := st.tmdbFailureStreak + 1
  if streak ≥ 1 then ⟨now + cooldown, streak⟩ else ⟨st.tmdbDisabledUntil, streak⟩

/-! ## The TMDB success path (`getMoviesFromTmdb`) -/

/-- One entry of the category tables built in `getMoviesFromTmdb`. -/
structure Category where
  title : String
  path : String
  type : String
  params : List (String × String) := []
deriving DecidableEq, Repr

/-- The fixed editorial categories. -/
def fixedCategories : List Category :=
  [ ⟨"Trending Movies", "/trending/movie/week", "movie", []⟩,
    ⟨"Trending TV", "/trending/tv/week", "series", []⟩,
    ⟨"Now Playing", "/movie/now_playing", "movie", []⟩,
    ⟨"Popular Movies", "/movie/popular", "movie", []⟩,
    ⟨"Top Rated Movies", "/movie/top_rated", "movie", []⟩,
    ⟨"Upcoming Movies", "/movie/upcoming", "movie", []⟩,
    ⟨"Popular TV", "/tv/popular", "series", []⟩,
    ⟨"Top Rated TV", "/tv/top_rated", "series", []⟩,
    ⟨"On The Air", "/tv/on_the_air", "series", []⟩ ]

def movieGenres : List String :=
  ["Action", "Adventure", "Animation", "Comedy", "Crime", "Documentary",
   "Drama", "Family", "Fantasy", "Horror", "Romance", "Science Fiction",
   "Thriller"]

def tvGenres : List String :=
  ["Action & Adventure", "Animation", "Comedy", "Crime", "Documentary",
   "Drama", "Family", "Mystery", "Reality", "Sci-Fi & Fantasy",
   "War & Politics"]

/-- The genre-derived discovery categories: a genre name that the fetched
genre map (keyed by lowercased name) does not resolve is silently skipped. -/
def genreCategories (genreMapMovie genreMapTv : List (String × Int)) :
    List Category :=
  (movieGenres.filterMap (fun name =>
    match (genreMapMovie.lookup (lowerStr name)) with
    | some id =>
        some ⟨name ++ " Movies", "/discover/movie", "movie",
              [("with_genres", toString id), ("sort_by", "popularity.desc")]⟩
    | none => none)) ++
  (tvGenres.filterMap (fun name =>
    match (genreMapTv.lookup (lowerStr name)) with
    | some id =>
        some ⟨name ++ " TV", "/discover/tv", "series",
              [("with_genres", toString id), ("sort_by", "popularity.desc")]⟩
    | none => none))

/-- `Math.min(Math.max(Number(req.query.perCategory) || 16, 6), 40)`:
`none` is an absent query parameter (`Number(undefined)` is NaN, and both
NaN and 0 fall to the `|| 16` default). -/
def perCategoryOf (q : Option String) : Int :=
  let base : Int :=
    match q with
    | none => 16
    | some s =>
      match jsNumber s with
      | none => 16
      | some 0 => 16
      | some v => v
  min (max base 6) 40

/-- The remote state a fully successful TMDB pass reads: the two genre
maps, the per-path listing results, and the per-target trailer lookups
(`none` = that trailer promise rejected, `some ""` = fulfilled with no
matching video). -/
structure TmdbWorld where
  genreMapMovie : List (String × Int)
  genreMapTv : List (String × Int)
  listing : String → List (String × String) → List TmdbItem
  trailer : Int → String → Option String

/-- The per-category fetches with `results.slice(0, perCategory)`. -/
def categoryResults (w : TmdbWorld) (per : Nat) :
    List (Category × List TmdbItem) :=
  (fixedCategories ++ genreCategories w.genreMapMovie w.genreMapTv).map
    (fun c => (c, (w.listing c.path c.params).take per))

/-- The trailer-enrichment subset: first 3 items of the first 2
categories, keyed `"{type}:{id}"`. -/
def trailerTargets (crs : List (Category × List TmdbItem)) :
    List (Int × String) :=
  (crs.take 2).flatMap (fun cr => (cr.2.take 3).map (fun item => (item.id, cr.1.type)))

/-- `Promise.allSettled` + keep fulfilled nonempty results. -/
def trailerEntries (w : TmdbWorld) (targets : List (Int × String)) :
    List (String × String) :=
  targets.filterMap (fun t =>
    match w.trailer t.1 t.2 with
    | some url => if url ≠ "" then some (t.2 ++ ":" ++ toString t.1, url) else none
    | none => none)

/-- The body of `getMoviesFromTmdb` after all fetches succeeded: build the
flat normalized list, `featured` only on the very first item of the very
first category. -/
def tmdbData (w : TmdbWorld) (perCategoryQ : Option String)
    (currentYear : Int) : List ContentRecord :=
  let per := (perCategoryOf perCategoryQ).toNat
  let crs := categoryResults w per
  let tmap := trailerEntries w (trailerTargets crs)
  (crs.enum.flatMap (fun cr =>
    (cr.2.2.enum.map (fun it =>
      mapTmdbItem it.2 cr.2.1.title cr.2.1.type tmap
        (decide (cr.1 = 0) && decide (it.1 = 0)) currentYear))))

/-! ## The aggregator (`getMovies`) -/

/-- The query-string parameters `getMovies` reads.  `search`, `category`,
`type` and `featured` destructure with default `''`, and the code treats
an absent value and `''` identically for them; `limit` defaults to the
string `'200'` but `''` behaves differently (`Number('') || 50`), so it
stays an `Option`.  So do `source` and `perCategory`, which are compared /
parsed without a default. -/
structure MoviesQuery where
  source : Option String := none
  search : String := ""
  category : String := ""
  type : String := ""
  featured : String := ""
  limit : Option String := none
  perCategory : Option String := none
deriving DecidableEq, Repr

/-- `Math.min(Math.max(Number(limit) || 50, 1), 500)` with the
destructuring default `limit = '200'` for an absent parameter. -/
def cappedLimitOf (limitQ : Option String) : Int :=
  let limit := limitQ.getD "200"
  let base : Int :=
    match jsNumber limit with
    | none => 50
    | some 0 => 50
    | some v => v
  min (max base 1) 500

/-- The in-memory seed fallback filter chain (raw, untrimmed query values;
`featured` is only consulted when it equals `'true'`). -/
def filteredSeed (q : MoviesQuery) (seed : List SeedMovie) : List SeedMovie :=
  ((((seed.filter (fun m => q.type = "" || m.type = q.type)).filter
      (fun m => q.category = "" || m.category = q.category)).filter
      (fun m => q.search = "" ||
        listIncludes (lowerStr q.search).data (lowerStr m.title).data)).filter
      (fun m => if q.featured = "true" then m.featured else true)).take
    (cappedLimitOf q.limit).toNat

/-- Everything a finished `getMovies` request shows: the HTTP status, the
response body (`count` + `data`), the health-tracker state left behind,
and whether the TMDB client was invoked at all. -/
structure MoviesResult where
  status : Nat
  count : Nat
  data : List ContentRecord
  state : HealthState
  upstreamInvoked : Bool
deriving DecidableEq, Repr

/-- The store / seed fallback tail of `getMovies` (from the destructuring
of `req.query` onward).  `dbReady` is `mongoose.connection.readyState === 1`;
`storeFind` stands for the (filtered, sorted) result of `Movie.find(...)`
before `.limit(cappedLimit)` is applied. -/
def moviesFallback (q : MoviesQuery) (dbReady : Bool)
    (storeFind : List MovieDoc) (seed : List SeedMovie)
    (st : HealthState) (invoked : Bool) : MoviesResult :=
  let cappedLimit := (cappedLimitOf q.limit).toNat
  if dbReady then
    let movies := storeFind.take cappedLimit
    { status := 200, count := movies.length, data := movies.map normalizeMovie
      state := ⟨0, 0⟩, upstreamInvoked := invoked }
  else
    let fs := filteredSeed q seed
    { status := 200, count := fs.length, data := fs.map normalizeSeedMovie
      state := st, upstreamInvoked := invoked }

/-- The TMDB eligibility gate at the top of `getMovies`:
`process.env.TMDB_API_KEY && req.query.source !== 'db' && !tmdbDisabled`
with `tmdbDisabled = tmdbDisabledUntil > now`. -/
def tmdbEligible (hasKey : Bool) (q : MoviesQuery) (now : Nat)
    (st : HealthState) : Bool :=
  hasKey && !(q.source == some "db") && !(st.tmdbDisabledUntil > now : Bool)

/-- `getMovies`.  `upstream` is `some w` when every TMDB fetch of this
request succeeds (with remote state `w`) and `none` when the attempt
throws; on success `getMoviesFromTmdb` resets the tracker and responds
directly, on failure the `catch` block records the failure and control
falls through to the store/seed tail. -/
def getMovies (hasKey : Bool) (cooldown : Nat) (q : MoviesQuery) (now : Nat)
    (upstream : Option TmdbWorld) (dbReady : Bool)
    (storeFind : List MovieDoc) (seed : List SeedMovie)
    (currentYear : Int) (st : HealthState) : MoviesResult :=
  if tmdbEligible hasKey q now st then
    match upstream with
    | some w =>
      let data := tmdbData w q.perCategory currentYear
      { status := 200, count := data.length, data := data
        state := ⟨0, 0⟩, upstreamInvoked := true }
    | none =>
      moviesFallback q dbReady storeFind seed (recordFailure now cooldown st) true
  else
    moviesFallback q dbReady storeFind seed st false

/-! ## The dedicated trailer endpoint (`getTmdbTrailer`) -/

/-- The outcome of `fetchTrailerUrl(id, normalizedType)`: it resolves with
a URL, resolves with `''` when no YouTube Trailer/Teaser/Clip matches, or
rejects (after exhausting retries). -/
inductive TrailerFetch where
  | ok (url : String)
  | thrown
deriving DecidableEq, Repr

/-- A response of the trailer endpoint: the HTTP status and, on 200, the
`trailerUrl` of the body. -/
structure TrailerResult where
  status : Nat
  trailerUrl : Option String := none
deriving DecidableEq, Repr

/-- `getTmdbTrailer`.  `type` and `id` are the path parameters (`""` models
a missing/empty `id`); `hasKey` is the truthiness of
`process.env.TMDB_API_KEY`; `fetch` is the outcome `fetchTrailerUrl` would
have.  `none` is the `next(error)` path taken when the fetch throws. -/
def getTmdbTrailer (type id : String) (hasKey : Bool)
    (fetch : TrailerFetch) : Option TrailerResult :=
  let normalizedType :=
    if type = "series" then "series" else if type = "movie" then "movie" else ""
  if normalizedType = "" || id = "" then
    some { status := 400 }
  else if !hasKey then
    some { status := 503 }
  else
    match fetch with
    | .thrown => none
    | .ok trailerUrl =>
      if trailerUrl = "" then some { status := 404 }
      else some { status := 200, trailerUrl := some trailerUrl }

/-! ## General lemmas -/

theorem data_append (a b : String) : (a ++ b).data = a.data ++ b.data := by
  cases a; cases b; rfl

theorem moviesFallback_upstreamInvoked (q : MoviesQuery) (dbReady : Bool)
    (storeFind : List MovieDoc) (seed : List SeedMovie) (st : HealthState)
    (invoked : Bool) :
    (moviesFallback q dbReady storeFind seed st invoked).upstreamInvoked = invoked := by
  unfold moviesFallback
  cases dbReady <;> simp

/-! ## Claims -/

/-- C1: when a `getMovies` request's TMDB attempt fails, the failure
recording step increments the process-wide failure streak and sets the
disabled-until timestamp to `now + cooldown`, a time `≥ now`; and any
`getMovies` request arriving while `now < tmdbDisabledUntil` does not
invoke the upstream client at all. -/
theorem C1_failure_cooldown_gate :
    (∀ (now cooldown : Nat) (st : HealthState),
      recordFailure now cooldown st =
        ⟨now + cooldown, st.tmdbFailureStreak + 1⟩ ∧ now ≤ now + cooldown) ∧
    (∀ (hasKey : Bool) (cooldown : Nat) (q : MoviesQuery) (now : Nat)
      (upstream : Option TmdbWorld) (dbReady : Bool)
      (storeFind : List MovieDoc) (seed : List SeedMovie)
      (currentYear : Int) (st : HealthState),
      now < st.tmdbDisabledUntil →
      (getMovies hasKey cooldown q now upstream dbReady storeFind seed
        currentYear st).upstreamInvoked = false) := by
  constructor
  · intro now cooldown st
    constructor
    · simp [recordFailure]
    · exact Nat.le_add_right _ _
  · intro hasKey cooldown q now upstream dbReady storeFind seed currentYear st h
    unfold getMovies
    have hgate : tmdbEligible hasKey q now st = false := by
      simp [tmdbEligible, h]
    rw [hgate]
    simp [moviesFallback_upstreamInvoked]

/-- C1 witness: a concrete failure recording and a concrete gated request. -/
theorem C1_witness :
    (recordFailure 7 100 ⟨0, 2⟩ = ⟨107, 3⟩ ∧ 7 ≤ 107) ∧
    (getMovies true 100 {} 5 none true [] [] 2026
      ⟨9, 1⟩).upstreamInvoked = false :=
  ⟨C1_failure_cooldown_gate.1 7 100 ⟨0, 2⟩,
   C1_failure_cooldown_gate.2 true 100 {} 5 none true [] [] 2026 ⟨9, 1⟩
     (by decide)⟩

/-- C4: a request with `source=db` never invokes the upstream client,
whatever the health-tracker state and whether or not an API key is
configured. -/
theorem C4_source_db_skips_upstream
    (hasKey : Bool) (cooldown : Nat) (q : MoviesQuery) (now : Nat)
    (upstream : Option TmdbWorld) (dbReady : Bool)
    (storeFind : List MovieDoc) (seed : List SeedMovie)
    (currentYear : Int) (st : HealthState)
    (hsrc : q.source = some "db") :
    (getMovies hasKey cooldown q now upstream dbReady storeFind seed
      currentYear st).upstreamInvoked = false := by
  unfold getMovies
  have hgate : tmdbEligible hasKey q now st = false := by
    simp [tmdbEligible, hsrc]
  rw [hgate]
  simp [moviesFallback_upstreamInvoked]

/-- C4 witness: a `source=db` request with a configured key, a healthy
tracker and a reachable upstream still skips the client. -/
theorem C4_witness :
    (getMovies true 300000 { source := some "db" } 0 none true [] [] 2026
      ⟨0, 0⟩).upstreamInvoked = false :=
  C4_source_db_skips_upstream true 300000 { source := some "db" } 0 none true
    [] [] 2026 ⟨0, 0⟩ rfl

/-- C2 counterexample: after an upstream failure, a successful (200)
response served from the Seed Catalog does NOT reset the health tracker —
the state keeps the freshly recorded failure (`disabledUntil = 110`,
`streak = 1`), refuting the claim that any successful fallback response
path (store or seed) resets it. -/
theorem C2_counterexample :
    (getMovies true 100 {} 10 none false [] [{ title := "A" }] 2026
      ⟨0, 0⟩).status = 200 ∧
    (getMovies true 100 {} 10 none false [] [{ title := "A" }] 2026
      ⟨0, 0⟩).state = ⟨110, 1⟩ ∧
    ¬ (getMovies true 100 {} 10 none false [] [{ title := "A" }] 2026
      ⟨0, 0⟩).state = ⟨0, 0⟩ := by
  refine ⟨rfl, rfl, ?_⟩
  intro h
  simpa [getMovies, tmdbEligible, recordFailure, moviesFallback] using
    congrArg HealthState.tmdbFailureStreak h

/-- C2 (amended): the health tracker resets to `⟨0, 0⟩` on a successful
upstream fetch and on any store-backed response path, but the seed-backed
path leaves the tracker untouched — after a failure it still holds the
just-recorded cooldown. -/
theorem C2_reset_on_upstream_or_store_only :
    (∀ (hasKey : Bool) (cooldown : Nat) (q : MoviesQuery) (now : Nat)
      (w : TmdbWorld) (dbReady : Bool) (storeFind : List MovieDoc)
      (seed : List SeedMovie) (currentYear : Int) (st : HealthState),
      tmdbEligible hasKey q now st = true →
      (getMovies hasKey cooldown q now (some w) dbReady storeFind seed
        currentYear st).state = ⟨0, 0⟩) ∧
    (∀ (hasKey : Bool) (cooldown : Nat) (q : MoviesQuery) (now : Nat)
      (upstream : Option TmdbWorld) (storeFind : List MovieDoc)
      (seed : List SeedMovie) (currentYear : Int) (st : HealthState),
      (getMovies hasKey cooldown q now upstream true storeFind seed
        currentYear st).state = ⟨0, 0⟩) ∧
    (∀ (hasKey : Bool) (cooldown : Nat) (q : MoviesQuery) (now : Nat)
      (storeFind : List MovieDoc) (seed : List SeedMovie)
      (currentYear : Int) (st : HealthState),
      tmdbEligible hasKey q now st = true →
      (getMovies hasKey cooldown q now none false storeFind seed
        currentYear st).state = recordFailure now cooldown st) := by
  refine ⟨?_, ?_, ?_⟩
  · intro hasKey cooldown q now w dbReady storeFind seed currentYear st hel
    simp [getMovies, hel]
  · intro hasKey cooldown q now upstream storeFind seed currentYear st
    unfold getMovies
    cases hel : tmdbEligible hasKey q now st <;>
      cases upstream <;> simp [moviesFallback]
  · intro hasKey cooldown q now storeFind seed currentYear st hel
    simp [getMovies, hel, moviesFallback]

/-- C2 witness: the three reset/no-reset behaviours at concrete inputs. -/
theorem C2_witness :
    (getMovies true 100 {} 10
      (some ⟨[], [], fun _ _ => [], fun _ _ => none⟩) false [] [] 2026
      ⟨0, 3⟩).state = ⟨0, 0⟩ ∧
    (getMovies true 100 {} 10 none true [] [] 2026 ⟨0, 3⟩).state = ⟨0, 0⟩ ∧
    (getMovies true 100 {} 10 none false [] [] 2026 ⟨0, 3⟩).state =
      recordFailure 10 100 ⟨0, 3⟩ :=
  ⟨C2_reset_on_upstream_or_store_only.1 true 100 {} 10
      ⟨[], [], fun _ _ => [], fun _ _ => none⟩ false [] [] 2026 ⟨0, 3⟩
      (by decide),
   C2_reset_on_upstream_or_store_only.2.1 true 100 {} 10 none [] [] 2026
      ⟨0, 3⟩,
   C2_reset_on_upstream_or_store_only.2.2 true 100 {} 10 [] [] 2026 ⟨0, 3⟩
      (by decide)⟩

/-- The characters Mongo's `ObjectId.toString` can produce: a real
persisted document's `_id` string is 24 lowercase hexadecimal digits. -/
def isHexChar (c : Char) : Bool := c.isDigit || ('a' ≤ c && c ≤ 'f')

theorem hex_no_dash (l : List Char) (hall : l.all isHexChar = true) :
    '-' ∉ l := by
  intro hm
  have := List.all_eq_true.1 hall _ hm
  simp [isHexChar] at this

/-- C3 counterexample: `normalizeMovie` stringifies the document id with
NO prefix at all, so the three id spaces are not separated by disjoint
prefixes: a store document whose `_id` stringifies to `"tmdb-movie-7"`
gets exactly the same id as the TMDB item `7` of kind `movie`. -/
theorem C3_counterexample :
    (normalizeMovie { _id := "tmdb-movie-7" }).id =
      (mapTmdbItem { id := 7 } "Trending Movies" "movie" [] false 2026).id ∧
    (normalizeMovie { _id := "tmdb-movie-7" }).id = "tmdb-movie-7" := by
  constructor <;> rfl

/-- C3 (amended): the upstream and seed normalizers use the disjoint
stable prefixes `tmdb-` / `seed-`, but the store normalizer emits the BARE
stringified `_id` with no prefix; upstream and seed ids never collide, and
the store id space is disjoint from both only because a real ObjectId
string is all-hex and hence contains no hyphen, while every `tmdb-`/
`seed-` id does. -/
theorem C3_id_spaces :
    (∀ (item : TmdbItem) (c t : String) (tm : List (String × String))
      (f : Bool) (cy : Int),
      (mapTmdbItem item c t tm f cy).id =
        "tmdb-" ++ t ++ "-" ++ toString item.id) ∧
    (∀ s : SeedMovie,
      (normalizeSeedMovie s).id =
        "seed-" ++ (⟨collapseWs (lowerStr s.title).data⟩ : String)) ∧
    (∀ d : MovieDoc, (normalizeMovie d).id = d._id) ∧
    (∀ (item : TmdbItem) (c t : String) (tm : List (String × String))
      (f : Bool) (cy : Int) (s : SeedMovie),
      (mapTmdbItem item c t tm f cy).id ≠ (normalizeSeedMovie s).id) ∧
    (∀ (d : MovieDoc) (item : TmdbItem) (c t : String)
      (tm : List (String × String)) (f : Bool) (cy : Int) (s : SeedMovie),
      d._id.data.all isHexChar = true →
      (normalizeMovie d).id ≠ (mapTmdbItem item c t tm f cy).id ∧
      (normalizeMovie d).id ≠ (normalizeSeedMovie s).id) := by
  refine ⟨fun _ _ _ _ _ _ => rfl, fun _ => rfl, fun _ => rfl, ?_, ?_⟩
  · intro item c t tm f cy s h
    have hd := congrArg String.data h
    show False
    simp only [mapTmdbItem, normalizeSeedMovie, data_append,
      List.cons_append, List.append_assoc, List.nil_append] at hd
    injection hd with h3 _
    exact absurd h3 (by decide)
  · intro d item c t tm f cy s hhex
    constructor
    · intro h
      apply hex_no_dash d._id.data hhex
      have h' : d._id = "tmdb-" ++ t ++ "-" ++ toString item.id := h
      rw [h', data_append, data_append, data_append]
      exact List.mem_append_left _ (List.mem_append_left _
        (List.mem_append_left _ (by decide)))
    · intro h
      apply hex_no_dash d._id.data hhex
      have h' : d._id =
          "seed-" ++ (⟨collapseWs (lowerStr s.title).data⟩ : String) := h
      rw [h', data_append]
      exact List.mem_append_left _ (by decide)

/-- C3 witness: a real-shaped hex ObjectId collides with neither a TMDB id
nor a seed id. -/
theorem C3_witness :
    (normalizeMovie { _id := "507f1f77bcf86cd799439011" }).id ≠
      (mapTmdbItem { id := 7 } "Trending Movies" "movie" [] false 2026).id ∧
    (normalizeMovie { _id := "507f1f77bcf86cd799439011" }).id ≠
      (normalizeSeedMovie { title := "Some Film" }).id :=
  C3_id_spaces.2.2.2.2 { _id := "507f1f77bcf86cd799439011" } { id := 7 }
    "Trending Movies" "movie" [] false 2026 { title := "Some Film" }
    (by decide)

/-- C5 counterexample: on the seed fallback, a `featured=false` filter is
NOT applied — the request returns the (featured) seed record anyway, so
the featured filter is honoured only for `featured=true`. -/
theorem C5_counterexample :
    ((getMovies false 0 { featured := "false" } 0 none false []
        [{ title := "F", featured := true }] 2026
        ⟨0, 0⟩).data.map ContentRecord.featured) = [true] ∧
    (getMovies false 0 { featured := "false" } 0 none false []
        [{ title := "F", featured := true }] 2026 ⟨0, 0⟩).count = 1 := by
  constructor <;> rfl

/-- C5 (amended): every item served from the Seed Catalog fallback
matches the requested filters — type exactly, category exactly, search as
a case-insensitive substring of the title — and the featured filter is
applied only when `featured=true` is requested (`featured=false` is
ignored on this path). -/
theorem C5_seed_filter_semantics
    (hasKey : Bool) (cooldown : Nat) (q : MoviesQuery) (now : Nat)
    (storeFind : List MovieDoc) (seed : List SeedMovie)
    (currentYear : Int) (st : HealthState) (r : ContentRecord)
    (hr : r ∈ (getMovies hasKey cooldown q now none false storeFind seed
      currentYear st).data) :
    (q.type ≠ "" → r.type = q.type) ∧
    (q.category ≠ "" → r.category = q.category) ∧
    (q.search ≠ "" →
      listIncludes (lowerStr q.search).data (lowerStr r.title).data = true) ∧
    (q.featured = "true" → r.featured = true) := by
  have hdata : (getMovies hasKey cooldown q now none false storeFind seed
      currentYear st).data = (filteredSeed q seed).map normalizeSeedMovie := by
    unfold getMovies
    cases h : tmdbEligible hasKey q now st <;> simp [moviesFallback]
  rw [hdata] at hr
  obtain ⟨m, hm, rfl⟩ := List.mem_map.1 hr
  unfold filteredSeed at hm
  have hm4 := List.take_subset _ _ hm
  obtain ⟨hm3, h4⟩ := List.mem_filter.1 hm4
  obtain ⟨hm2, h3⟩ := List.mem_filter.1 hm3
  obtain ⟨hm1, h2⟩ := List.mem_filter.1 hm2
  obtain ⟨-, h1⟩ := List.mem_filter.1 hm1
  refine ⟨?_, ?_, ?_, ?_⟩
  · intro ht
    simp only [Bool.or_eq_true, decide_eq_true_eq] at h1
    rcases h1 with h1 | h1
    · exact absurd h1 ht
    · exact h1
  · intro hc
    simp only [Bool.or_eq_true, decide_eq_true_eq] at h2
    rcases h2 with h2 | h2
    · exact absurd h2 hc
    · exact h2
  · intro hs
    simp only [Bool.or_eq_true, decide_eq_true_eq] at h3
    rcases h3 with h3 | h3
    · exact absurd h3 hs
    · exact h3
  · intro hf
    rw [hf] at h4
    simpa using h4

/-- C5 witness: a request filtering on type, category, search and
`featured=true`, served from a one-record seed catalog. -/
theorem C5_witness :
    ("movie" ≠ "" →
      (normalizeSeedMovie
        { title := "Up High", type := "movie", category := "Fun",
          featured := true }).type = "movie") ∧
    ("Fun" ≠ "" →
      (normalizeSeedMovie
        { title := "Up High", type := "movie", category := "Fun",
          featured := true }).category = "Fun") ∧
    ("UP" ≠ "" →
      listIncludes (lowerStr "UP").data
        (lowerStr (normalizeSeedMovie
          { title := "Up High", type := "movie", category := "Fun",
            featured := true }).title).data = true) ∧
    ("true" = "true" →
      (normalizeSeedMovie
        { title := "Up High", type := "movie", category := "Fun",
          featured := true }).featured = true) :=
  C5_seed_filter_semantics false 0
    { search := "UP", category := "Fun", type := "movie", featured := "true" }
    0 []
    [{ title := "Up High", type := "movie", category := "Fun",
       featured := true }]
    2026 ⟨0, 0⟩
    (normalizeSeedMovie
      { title := "Up High", type := "movie", category := "Fun",
        featured := true })
    (by decide)

/-- C6 counterexample: the seed normalizer passes an unrecognized `type`
value straight through — nothing maps it to `movie`. -/
theorem C6_counterexample :
    (normalizeSeedMovie { title := "X", type := "widget" }).type = "widget" ∧
    ¬((normalizeSeedMovie { title := "X", type := "widget" }).type = "movie" ∨
      (normalizeSeedMovie { title := "X", type := "widget" }).type = "series") := by
  decide

/-- C6 (amended): all three normalization functions copy the source `type`
verbatim, with no defaulting of unrecognized values; the upstream pipeline
nevertheless only ever feeds `mapTmdbItem` the hard-coded category kinds,
each of which is `movie` or `series`. -/
theorem C6_type_passthrough :
    (∀ (item : TmdbItem) (c t : String) (tm : List (String × String))
      (f : Bool) (cy : Int), (mapTmdbItem item c t tm f cy).type = t) ∧
    (∀ d : MovieDoc, (normalizeMovie d).type = d.type) ∧
    (∀ s : SeedMovie, (normalizeSeedMovie s).type = s.type) ∧
    (∀ (gm gt : List (String × Int)) (cat : Category),
      cat ∈ fixedCategories ++ genreCategories gm gt →
      cat.type = "movie" ∨ cat.type = "series") := by
  refine ⟨fun _ _ _ _ _ _ => rfl, fun _ => rfl, fun _ => rfl, ?_⟩
  intro gm gt cat hcat
  rcases List.mem_append.1 hcat with h | h
  · have hall : ∀ c ∈ fixedCategories,
        c.type = "movie" ∨ c.type = "series" := by decide
    exact hall _ h
  · unfold genreCategories at h
    rcases List.mem_append.1 h with h' | h' <;>
      obtain ⟨name, -, heq⟩ := List.mem_filterMap.1 h'
    · split at heq
      · injection heq with heq2
        subst heq2
        exact Or.inl rfl
      · cases heq
    · split at heq
      · injection heq with heq2
        subst heq2
        exact Or.inr rfl
      · cases heq

/-- C6 witness: the first editorial category has a recognized kind. -/
theorem C6_witness :
    (⟨"Trending Movies", "/trending/movie/week", "movie", []⟩ : Category).type
        = "movie" ∨
    (⟨"Trending Movies", "/trending/movie/week", "movie", []⟩ : Category).type
        = "series" :=
  C6_type_passthrough.2.2.2 [] []
    ⟨"Trending Movies", "/trending/movie/week", "movie", []⟩ (by decide)

/-- C7: the upstream per-category item count is the request's
`perCategory` clamped to `[6, 40]` (default 16 when absent): `3 ↦ 6`,
`500 ↦ 40`, and every category's fetched result list is cut to at most
that many items. -/
theorem C7_perCategory_clamp :
    perCategoryOf (some "3") = 6 ∧
    perCategoryOf (some "500") = 40 ∧
    perCategoryOf none = 16 ∧
    (∀ q : Option String, 6 ≤ perCategoryOf q ∧ perCategoryOf q ≤ 40) ∧
    (∀ (w : TmdbWorld) (q : Option String) (cr : Category × List TmdbItem),
      cr ∈ categoryResults w (perCategoryOf q).toNat →
      cr.2.length ≤ (perCategoryOf q).toNat) := by
  refine ⟨by decide, by decide, by decide, ?_, ?_⟩
  · intro q
    unfold perCategoryOf
    exact ⟨le_min (le_max_right _ _) (by norm_num), min_le_right _ _⟩
  · intro w q cr hcr
    unfold categoryResults at hcr
    obtain ⟨c, -, rfl⟩ := List.mem_map.1 hcr
    simp

/-- C7 witness: a bound instance at an empty remote listing. -/
theorem C7_witness :
    ((⟨"Trending Movies", "/trending/movie/week", "movie", []⟩ : Category),
      ([] : List TmdbItem)).2.length ≤ (perCategoryOf none).toNat :=
  C7_perCategory_clamp.2.2.2.2 ⟨[], [], fun _ _ => [], fun _ _ => none⟩ none
    (⟨"Trending Movies", "/trending/movie/week", "movie", []⟩,
      ([] : List TmdbItem))
    (by decide)

/-- C8: the dedicated trailer endpoint returns 400 for a bad type or
missing id (checked first), 503 when no API key is configured, 404 when
the upstream answers but no trailer matches, and 200 with the trailer URL
otherwise. -/
theorem C8_trailer_statuses :
    (∀ (t i : String) (k : Bool) (f : TrailerFetch),
      ((t ≠ "movie" ∧ t ≠ "series") ∨ i = "") →
      getTmdbTrailer t i k f = some { status := 400 }) ∧
    (∀ (t i : String) (f : TrailerFetch),
      (t = "movie" ∨ t = "series") → i ≠ "" →
      getTmdbTrailer t i false f = some { status := 503 }) ∧
    (∀ t i : String, (t = "movie" ∨ t = "series") → i ≠ "" →
      getTmdbTrailer t i true (.ok "") = some { status := 404 }) ∧
    (∀ t i url : String, (t = "movie" ∨ t = "series") → i ≠ "" → url ≠ "" →
      getTmdbTrailer t i true (.ok url) =
        some { status := 200, trailerUrl := some url }) := by
  refine ⟨?_, ?_, ?_, ?_⟩
  · intro t i k f h
    unfold getTmdbTrailer
    rcases h with ⟨h1, h2⟩ | h
    · simp [h1, h2]
    · simp [h]
  · intro t i f ht hi
    unfold getTmdbTrailer
    rcases ht with rfl | rfl <;> simp [hi]
  · intro t i ht hi
    unfold getTmdbTrailer
    rcases ht with rfl | rfl <;> simp [hi]
  · intro t i url ht hi hurl
    unfold getTmdbTrailer
    rcases ht with rfl | rfl <;> simp [hi, hurl]

/-- C8 witness: one request per status. -/
theorem C8_witness :
    getTmdbTrailer "music" "7" true (.ok "u") = some { status := 400 } ∧
    getTmdbTrailer "movie" "7" false (.ok "u") = some { status := 503 } ∧
    getTmdbTrailer "series" "7" true (.ok "") = some { status := 404 } ∧
    getTmdbTrailer "movie" "7" true (.ok "https://www.youtube.com/embed/x") =
      some { status := 200,
             trailerUrl := some "https://www.youtube.com/embed/x" } :=
  ⟨C8_trailer_statuses.1 "music" "7" true (.ok "u")
      (Or.inl ⟨by decide, by decide⟩),
   C8_trailer_statuses.2.1 "movie" "7" (.ok "u") (Or.inl rfl) (by decide),
   C8_trailer_statuses.2.2.1 "series" "7" (Or.inr rfl) (by decide),
   C8_trailer_statuses.2.2.2 "movie" "7" "https://www.youtube.com/embed/x"
      (Or.inl rfl) (by decide) (by decide)⟩

/-- C9 counterexample: a nonempty but unparseable release date gives
`year = NaN` (`none`), not the current year (here 2026). -/
theorem C9_counterexample :
    (mapTmdbItem { id := 1, release_date := "abcd-01-01" } "Cat" "movie" []
      false 2026).year = none ∧
    (mapTmdbItem { id := 1, release_date := "abcd-01-01" } "Cat" "movie" []
      false 2026).year ≠ some 2026 := by
  decide

/-- C9 (amended): `year` is `Number` of the first 4 characters of the
first nonempty release date (so NaN when that prefix is unparseable), and
the current year only when both date fields are absent/empty. -/
theorem C9_year_parse
    (item : TmdbItem) (c t : String) (tm : List (String × String))
    (f : Bool) (cy : Int) :
    (jsOrS item.release_date (jsOrS item.first_air_date "") = "" →
      (mapTmdbItem item c t tm f cy).year = some cy) ∧
    (jsOrS item.release_date (jsOrS item.first_air_date "") ≠ "" →
      (mapTmdbItem item c t tm f cy).year =
        jsNumber
          (strTake (jsOrS item.release_date (jsOrS item.first_air_date "")) 4)) := by
  constructor <;> intro h <;> simp [mapTmdbItem, h]

/-- C9 witness: an item with no dates takes the current year, an item
with a date takes its 4-character prefix parse. -/
theorem C9_witness :
    (mapTmdbItem { id := 1 } "Cat" "movie" [] false 2026).year = some 2026 ∧
    (mapTmdbItem { id := 2, release_date := "2019-05-01" } "Cat" "movie" []
      false 2026).year =
      jsNumber (strTake (jsOrS "2019-05-01" (jsOrS "" "")) 4) :=
  ⟨(C9_year_parse { id := 1 } "Cat" "movie" [] false 2026).1 (by decide),
   (C9_year_parse { id := 2, release_date := "2019-05-01" } "Cat" "movie" []
      false 2026).2 (by decide)⟩

/-- C10: the store/seed limit is `clamp(Number(limit) || 50, 1, 500)` with
the absent-parameter default `'200'`, so `limit=0` and non-numeric limits
give 50 (not the clamp floor of 1), and the fallback paths return at most
that many items. -/
theorem C10_limit_clamp :
    cappedLimitOf none = 200 ∧
    cappedLimitOf (some "0") = 50 ∧
    cappedLimitOf (some "abc") = 50 ∧
    (∀ s : String,
      cappedLimitOf (some s) =
        min (max (match jsNumber s with
                  | none => 50
                  | some 0 => 50
                  | some v => v) 1) 500) ∧
    (∀ (hasKey : Bool) (cooldown : Nat) (q : MoviesQuery) (now : Nat)
      (storeFind : List MovieDoc) (seed : List SeedMovie)
      (currentYear : Int) (st : HealthState) (dbReady : Bool),
      (getMovies hasKey cooldown q now none dbReady storeFind seed
        currentYear st).data.length ≤ (cappedLimitOf q.limit).toNat) := by
  refine ⟨by decide, by decide, by decide, fun s => rfl, ?_⟩
  intro hasKey cooldown q now storeFind seed currentYear st dbReady
  have hlen : ∀ (st' : HealthState) (inv : Bool),
      (moviesFallback q dbReady storeFind seed st' inv).data.length ≤
        (cappedLimitOf q.limit).toNat := by
    intro st' inv
    unfold moviesFallback
    cases dbReady <;> simp [filteredSeed]
  unfold getMovies
  cases h : tmdbEligible hasKey q now st <;> simp [h] <;> apply hlen

end NetflixClone
